import Mathlib

/-!
Shallow embedding of the discord-bridge message-cursor and
interaction-filtering state machine (src/discord_bridge.py).

Modelling conventions:
  * Message ids are the abstract monotonically-increasing identifiers of the
    remote store; they are modelled as `Nat` (order is all that matters).
  * The remote message store is modelled as a list of messages sorted
    newest-first (reverse-chronological, descending id), which is the
    native page order the remote returns both with and without an
    `after` anchor.  `fetch_after` / `fetch_recent` model a successful
    `get_messages` call against such a store; `get_messages` itself models
    the HTTP wrapper including the non-success path.
  * Timestamps and wall-clock instants are `Int` (seconds) for message
    timestamps and `Rat` (fractional seconds, like `time.time()`) for the
    send cursor.
  * Environment-derived strings that Python tests for truthiness
    (`BOT_ID`) are `Option String`, where `none` models an unset variable
    and `some ""` an empty one; `truthy` embeds Python truthiness.
  * The three durable cursor files are the fields of `BridgeState`;
    "file absent" is `none`.
  * Remote side effects are explicit: send-like operations take the remote
    response as a parameter and return, besides the result and the new
    state, whether the remote endpoint was contacted at all.
-/

structure Author where
  id : String
  username : String
  global_name : Option String
  deriving DecidableEq, Repr

structure Message where
  id : Nat
  author : Author
  content : String
  timestamp : Int
  deriving DecidableEq, Repr

/-- FilteredMessage: the record shape built by `get_pending_interactions`. -/
structure FilteredMessage where
  id : Nat
  author : String
  author_id : String
  content : String
  timestamp : Int
  deriving DecidableEq, Repr

/-- Process-wide configuration derived from the environment:
`DISCORD_BOT_ID`, `DISCORD_ALLOWED_USERS`, `DISCORD_RATE_LIMIT`. -/
structure Config where
  botId : Option String
  allowedUsers : List (String × String)
  minSendInterval : Rat
  deriving DecidableEq, Repr

/-- The three durable cursor files in `.state/`:
`last_read`, `last_interaction`, `last_send`. -/
structure BridgeState where
  lastRead : Option Nat
  lastInteraction : Option Nat
  lastSend : Option Rat
  deriving DecidableEq, Repr

/-- An HTTP response to a message-list request. -/
structure FetchResponse where
  status : Nat
  body : List Message
  deriving DecidableEq, Repr

/-- An HTTP response to a message-create request; `created` is the message
echoed back on success, `body` the error text otherwise. -/
structure SendResponse where
  status : Nat
  created : Message
  body : String
  deriving DecidableEq, Repr

/-- Outcome of `send_message` / `reply_to`. -/
inductive SendResult where
  | rateLimited (wait_seconds : Rat)
  | sent (created : Message)
  | sendFailed (body : String)
  deriving DecidableEq, Repr

/-- The JSON payload `reply_to` posts to the remote store. -/
structure ReplyRequest where
  content : String
  message_reference : Nat
  deriving DecidableEq, Repr

/-- Python truthiness of an optional environment string: unset (`None`)
and the empty string are falsy. -/
def truthy : Option String → Bool
  | none => false
  | some s => !(s == "")

/-- Embedding of `get_messages`: returns the response body on HTTP 200, and the empty
list on any other status (the error is printed, not raised). -/
def get_messages (resp : FetchResponse) : List Message :=
  if resp.status == 200 then resp.body else []

/-- A successful fetch with `after = c`: the remote returns (up to `lim` of)
the messages with id strictly greater than `c`, page sorted newest-first;
the page is anchored at the oldest such messages. -/
def fetch_after (store : List Message) (lim : Nat) (c : Nat) : List Message :=
  let newer := store.filter (fun m => c < m.id)
  newer.drop (newer.length - lim)

/-- A successful fetch without `after`: the newest `lim` messages,
page sorted newest-first. -/
def fetch_recent (store : List Message) (lim : Nat) : List Message :=
  store.take lim

/-- The self-exclusion step of `read_unread`:
`if BOT_ID: messages = [m for m in messages if m.author.id != BOT_ID]`. -/
def read_unread_filter (botId : Option String) (msgs : List Message) : List Message :=
  match botId with
  | none => msgs
  | some b => if b == "" then msgs else msgs.filter (fun m => !(m.author.id == b))

/-- The fetch step of `read_unread`: with a stored cursor fetch 50 after it,
otherwise fetch the 10 most recent messages. -/
def read_unread_fetch (store : List Message) (st : BridgeState) : List Message :=
  match st.lastRead with
  | some c => fetch_after store 50 c
  | none => fetch_recent store 10

/-- Embedding of `read_unread`: fetch since the `last_read` cursor, drop own messages,
reverse to chronological order; if anything survives, persist the last
surviving message id as the new `last_read` cursor. -/
def read_unread (cfg : Config) (store : List Message) (st : BridgeState) :
    List Message × BridgeState :=
  let fetched := read_unread_fetch store st
  let msgs := (read_unread_filter cfg.botId fetched).reverse
  match msgs.getLast? with
  | none => ([], st)
  | some last => (msgs, { st with lastRead := some last.id })

/-- Embedding of `is_allowed_user`: empty allow-list permits everyone, otherwise the
author id must be a key. -/
def is_allowed_user (allowed : List (String × String)) (user_id : String) : Bool :=
  if allowed.isEmpty then true
  else (allowed.lookup user_id).isSome

/-- Embedding of `get_user_label`: the allow-list's configured name when the author is a
key, else the author's display name (Python `or`: empty string falls
through), else the raw username. -/
def get_user_label (allowed : List (String × String)) (m : Message) : String :=
  match allowed.lookup m.author.id with
  | some name => name
  | none =>
    match m.author.global_name with
    | some g => if g == "" then m.author.username else g
    | none => m.author.username

/-- The per-message guard of `get_pending_interactions`:
`(not BOT_ID or m.author.id != BOT_ID)`. -/
def self_ok (botId : Option String) (m : Message) : Bool :=
  match botId with
  | none => true
  | some b => if b == "" then true else !(m.author.id == b)

/-- The fetch step of `get_pending_interactions`: with a stored cursor fetch
50 after it; otherwise fetch the 50 most recent and, when `since_minutes`
is truthy (nonzero), keep only messages newer than `now - since_minutes`
minutes. -/
def interaction_fetch (store : List Message) (st : BridgeState) (now : Int)
    (since_minutes : Nat) : List Message :=
  match st.lastInteraction with
  | some c => fetch_after store 50 c
  | none =>
    let page := fetch_recent store 50
    if since_minutes ≠ 0 then
      page.filter (fun m => now - (since_minutes : Int) * 60 < m.timestamp)
    else page

/-- The filter step of `get_pending_interactions`: self-exclusion and
allow-list combined in one comprehension. -/
def interaction_filter (cfg : Config) (msgs : List Message) : List Message :=
  msgs.filter (fun m => self_ok cfg.botId m && is_allowed_user cfg.allowedUsers m.author.id)

/-- The record `get_pending_interactions` builds per surviving message. -/
def to_filtered (cfg : Config) (m : Message) : FilteredMessage :=
  { id := m.id
    author := get_user_label cfg.allowedUsers m
    author_id := m.author.id
    content := m.content
    timestamp := m.timestamp }

/-- Embedding of `get_pending_interactions`: fetch, filter, reverse to chronological
order, and package each surviving message. -/
def get_pending_interactions (cfg : Config) (store : List Message) (st : BridgeState)
    (now : Int) (since_minutes : Nat) : List FilteredMessage :=
  let fetched := interaction_fetch store st now since_minutes
  let filtered := interaction_filter cfg fetched
  (filtered.reverse).map (to_filtered cfg)

/-- Embedding of `check_interactions`: display the pending interactions and, when
`mark_read` and the list is non-empty, persist the last pending message id
as the new `last_interaction` cursor. -/
def check_interactions (cfg : Config) (store : List Message) (st : BridgeState)
    (now : Int) (since_minutes : Nat) (mark_read : Bool) :
    List FilteredMessage × BridgeState :=
  let pending := get_pending_interactions cfg store st now since_minutes
  match pending.getLast? with
  | none => ([], st)
  | some last =>
    if mark_read then (pending, { st with lastInteraction := some last.id })
    else (pending, st)

/-- Embedding of `send_message`: when the `last_send` cursor file exists and `force` is
off, rate-limit when `MIN_SEND_INTERVAL - (now - last_send)` is positive
(no remote contact, no cursor write); otherwise post, and on HTTP 200 set
the `last_send` cursor to now.  The third component records whether the
remote endpoint was contacted. -/
def send_message (cfg : Config) (st : BridgeState) (now : Rat) (force : Bool)
    (resp : SendResponse) : SendResult × BridgeState × Bool :=
  match st.lastSend, force with
  | some t, false =>
    let remaining := cfg.minSendInterval - (now - t)
    if 0 < remaining then (.rateLimited remaining, st, false)
    else if resp.status == 200 then (.sent resp.created, { st with lastSend := some now }, true)
    else (.sendFailed resp.body, st, true)
  | _, _ =>
    if resp.status == 200 then (.sent resp.created, { st with lastSend := some now }, true)
    else (.sendFailed resp.body, st, true)

/-- Embedding of `reply_to`: identical gate to `send_message`, but the posted payload
carries a `message_reference` to the target id.  The third component is
the request actually posted (`none` when the remote was not contacted). -/
def reply_to (cfg : Config) (st : BridgeState) (now : Rat) (force : Bool)
    (target : Nat) (content : String) (resp : SendResponse) :
    SendResult × BridgeState × Option ReplyRequest :=
  match st.lastSend, force with
  | some t, false =>
    let remaining := cfg.minSendInterval - (now - t)
    if 0 < remaining then (.rateLimited remaining, st, none)
    else if resp.status == 200 then
      (.sent resp.created, { st with lastSend := some now }, some ⟨content, target⟩)
    else (.sendFailed resp.body, st, some ⟨content, target⟩)
  | _, _ =>
    if resp.status == 200 then
      (.sent resp.created, { st with lastSend := some now }, some ⟨content, target⟩)
    else (.sendFailed resp.body, st, some ⟨content, target⟩)

/-- Embedding of `delete_recent_bot_messages`: with no (truthy) `BOT_ID` delete nothing
and report 0; otherwise take the first `count` fetched messages authored by
the bot, try to delete each, and report how many deletions succeeded
(`delete_ok` models the per-message HTTP 204 outcome).  Returns the count
reported and the ids actually deleted. -/
def delete_recent_bot_messages (botId : Option String) (page : List Message)
    (count : Nat) (delete_ok : Nat → Bool) : Nat × List Nat :=
  match botId with
  | none => (0, [])
  | some b =>
    if b == "" then (0, [])
    else
      let bots := (page.filter (fun m => m.author.id == b)).take count
      let deletedIds := (bots.filter (fun m => delete_ok m.id)).map (fun m => m.id)
      (deletedIds.length, deletedIds)

/-! Concrete fixtures used by witnesses and counterexamples. -/

def bot_author : Author := { id := "BOT", username := "bridge", global_name := none }

def alice_author : Author := { id := "42", username := "alice", global_name := some "Ally" }

def msg_one : Message := { id := 1, author := alice_author, content := "hi", timestamp := 50 }

def msg_two : Message := { id := 2, author := bot_author, content := "status", timestamp := 60 }

/-- A remote store page in native newest-first order. -/
def store_one : List Message := [msg_two, msg_one]

def cfg_one : Config := { botId := some "BOT", allowedUsers := [], minSendInterval := 300 }

def st_one : BridgeState := { lastRead := some 0, lastInteraction := some 0, lastSend := none }

def st_two : BridgeState := { lastRead := some 5, lastInteraction := some 5, lastSend := none }

def st_sent : BridgeState := { lastRead := none, lastInteraction := none, lastSend := some 0 }

def resp_created : SendResponse := { status := 200, created := msg_two, body := "" }

def resp_refused : SendResponse := { status := 500, created := msg_two, body := "boom" }

def fetch_refused : FetchResponse := { status := 500, body := [msg_one] }

def allowed_one : List (String × String) := [("42", "Alice")]

def ok_all : Nat → Bool := fun _ => true

/-- A store page whose every message is authored by the bridge itself. -/
def store_bots : List Message := [msg_two]

/-! Helper lemmas. -/

theorem fetch_after_eq_nil (store : List Message) (lim c : Nat)
    (h : ∀ m ∈ store, m.id ≤ c) : fetch_after store lim c = [] := by
  unfold fetch_after
  have hf : store.filter (fun m => decide (c < m.id)) = [] := by
    rw [List.filter_eq_nil_iff]
    intro m hm
    simpa using Nat.not_lt.mpr (h m hm)
  simp [hf]

theorem read_unread_filter_nil (b : Option String) : read_unread_filter b [] = [] := by
  unfold read_unread_filter
  cases b with
  | none => rfl
  | some s => split <;> simp

theorem read_unread_filter_sublist (b : Option String) (l : List Message) :
    List.Sublist (read_unread_filter b l) l := by
  unfold read_unread_filter
  cases b with
  | none => exact List.Sublist.refl l
  | some s =>
    dsimp only
    split
    · exact List.Sublist.refl l
    · exact List.filter_sublist l

theorem fetch_after_sublist (store : List Message) (lim c : Nat) :
    List.Sublist (fetch_after store lim c) store := by
  unfold fetch_after
  exact (List.drop_sublist _ _).trans (List.filter_sublist store)

theorem read_unread_fetch_sublist (store : List Message) (st : BridgeState) :
    List.Sublist (read_unread_fetch store st) store := by
  unfold read_unread_fetch
  cases st.lastRead with
  | none => exact List.take_sublist 10 store
  | some c => exact fetch_after_sublist store 50 c

theorem interaction_fetch_sublist (store : List Message) (st : BridgeState)
    (now : Int) (since : Nat) :
    List.Sublist (interaction_fetch store st now since) store := by
  unfold interaction_fetch
  cases st.lastInteraction with
  | none =>
    dsimp only
    split
    · exact (List.filter_sublist _).trans (List.take_sublist 50 store)
    · exact List.take_sublist 50 store
  | some c => exact fetch_after_sublist store 50 c

theorem read_unread_fst (cfg : Config) (store : List Message) (st : BridgeState) :
    (read_unread cfg store st).1 =
      (read_unread_filter cfg.botId (read_unread_fetch store st)).reverse := by
  unfold read_unread
  cases h : ((read_unread_filter cfg.botId (read_unread_fetch store st)).reverse).getLast? with
  | none => simp [h, List.getLast?_eq_none_iff.mp h]
  | some last => simp [h]

theorem get_pending_fst (cfg : Config) (store : List Message) (st : BridgeState)
    (now : Int) (since : Nat) :
    get_pending_interactions cfg store st now since =
      ((interaction_filter cfg (interaction_fetch store st now since)).reverse).map
        (to_filtered cfg) := rfl

theorem read_unread_no_new (cfg : Config) (store : List Message) (st : BridgeState)
    (c : Nat) (hr : st.lastRead = some c) (h : ∀ m ∈ store, m.id ≤ c) :
    read_unread cfg store st = ([], st) := by
  have hf : read_unread_fetch store st = [] := by
    unfold read_unread_fetch
    rw [hr]
    exact fetch_after_eq_nil store 50 c h
  simp [read_unread, hf, read_unread_filter_nil]

theorem check_interactions_no_new (cfg : Config) (store : List Message)
    (st : BridgeState) (now : Int) (since c : Nat) (mr : Bool)
    (hr : st.lastInteraction = some c) (h : ∀ m ∈ store, m.id ≤ c) :
    check_interactions cfg store st now since mr = ([], st) := by
  have hf : interaction_fetch store st now since = [] := by
    unfold interaction_fetch
    rw [hr]
    exact fetch_after_eq_nil store 50 c h
  simp [check_interactions, get_pending_interactions, hf, interaction_filter]

theorem read_unread_filter_eq (b : String) (hb : b ≠ "") (l : List Message) :
    read_unread_filter (some b) l = l.filter (fun m => !(m.author.id == b)) := by
  show (if (b == "") = true then l else l.filter (fun m => !(m.author.id == b))) = _
  simp [hb]

theorem self_ok_eq (b : String) (hb : b ≠ "") (m : Message) :
    self_ok (some b) m = !(m.author.id == b) := by
  show (if (b == "") = true then true else !(m.author.id == b)) = _
  simp [hb]

theorem lookup_isSome_iff (u : String) (l : List (String × String)) :
    (l.lookup u).isSome = true ↔ ∃ nm, (u, nm) ∈ l := by
  induction l with
  | nil => simp [List.lookup]
  | cons p tl ih =>
    obtain ⟨k, v⟩ := p
    by_cases hk : u = k
    · subst hk
      refine ⟨fun _ => ⟨v, List.mem_cons_self _ _⟩, fun _ => ?_⟩
      simp [List.lookup]
    · have hbeq : (u == k) = false := by simp [hk]
      simp [List.lookup, hbeq, ih, List.mem_cons, Prod.mk.injEq, hk]

/-! Claim theorems. -/

/-- C8: for every fetch whose remote response has a non-success status,
`get_messages` returns the empty message list, so the caller's cycle
proceeds as if no messages were available instead of aborting. -/
theorem C8_fetch_error_yields_empty (resp : FetchResponse) (h : resp.status ≠ 200) :
    get_messages resp = [] := by
  simp [get_messages, h]

/-- Witness for C8: a 500 response with a non-empty body still yields []. -/
theorem C8_witness : get_messages fetch_refused = [] :=
  C8_fetch_error_yields_empty fetch_refused (by decide)

/-- C2: when the remote store has no messages newer than the stored cursors,
polling twice in succession (`read_unread`, and `check_interactions`)
returns the empty sequence both times, and the cursor state on disk is
unchanged by the second call (indeed by either call). -/
theorem C2_poll_twice_idempotent (cfg : Config) (store : List Message)
    (st : BridgeState) (c ci : Nat) (now : Int) (since : Nat) (mr : Bool)
    (hr : st.lastRead = some c) (hc : ∀ m ∈ store, m.id ≤ c)
    (hi : st.lastInteraction = some ci) (hci : ∀ m ∈ store, m.id ≤ ci) :
    read_unread cfg store st = ([], st) ∧
    read_unread cfg store (read_unread cfg store st).2 = ([], st) ∧
    check_interactions cfg store st now since mr = ([], st) ∧
    check_interactions cfg store (check_interactions cfg store st now since mr).2
      now since mr = ([], st) := by
  have h1 := read_unread_no_new cfg store st c hr hc
  have h2 := check_interactions_no_new cfg store st now since ci mr hi hci
  refine ⟨h1, ?_, h2, ?_⟩
  · rw [h1]
    exact h1
  · rw [h2]
    exact h2

/-- Witness for C2 at a concrete store and state. -/
theorem C2_witness :
    store_one.all (fun m => decide (m.id ≤ 5)) = true ∧
    read_unread cfg_one store_one st_two = ([], st_two) ∧
    check_interactions cfg_one store_one st_two 0 60 true = ([], st_two) := by
  have h := C2_poll_twice_idempotent cfg_one store_one st_two 5 5 0 60 true rfl
    (by decide) rfl (by decide)
  exact ⟨by decide, h.1, h.2.2.1⟩

/-- C1: counterexample.  With a stored cursor 0, the fetch step returns the
non-empty page [id 2 (authored by the bridge itself), id 1]; the claim says
the stored cursor must then equal 2 (the most recent fetched id), but
`read_unread` persists 1, the id of the newest message that survived the
self-exclusion filter. -/
theorem C1_counterexample :
    (read_unread_fetch store_one st_one).map Message.id = [2, 1] ∧
    (read_unread cfg_one store_one st_one).2.lastRead = some 1 ∧
    (read_unread cfg_one store_one st_one).2.lastRead ≠ some 2 := by
  decide

/-- C1 (amended): after any poll (`read_unread`, or `check_interactions`
with `mark_read`) whose *filtered* result is non-empty, the stored cursor
equals the id of the most recent message that survived the self-exclusion
and allow-list filters; when nothing survives, the cursor is not written. -/
theorem C1_cursor_tracks_surviving (cfg : Config) (store : List Message)
    (st : BridgeState) (now : Int) (since : Nat) :
    (∀ last, (read_unread cfg store st).1.getLast? = some last →
      (read_unread cfg store st).2.lastRead = some last.id) ∧
    ((read_unread cfg store st).1 = [] → (read_unread cfg store st).2 = st) ∧
    (∀ last, (check_interactions cfg store st now since true).1.getLast? = some last →
      (check_interactions cfg store st now since true).2.lastInteraction = some last.id) ∧
    ((check_interactions cfg store st now since true).1 = [] →
      (check_interactions cfg store st now since true).2 = st) := by
  refine ⟨?_, ?_, ?_, ?_⟩
  · intro last hlast
    unfold read_unread at hlast ⊢
    cases h : ((read_unread_filter cfg.botId (read_unread_fetch store st)).reverse).getLast? with
    | none => simp [h] at hlast
    | some l =>
      simp [h] at hlast ⊢
      rw [hlast]
  · intro hnil
    unfold read_unread at hnil ⊢
    cases h : ((read_unread_filter cfg.botId (read_unread_fetch store st)).reverse).getLast? with
    | none => simp [h]
    | some l =>
      simp [h] at hnil
      simp [hnil] at h
  · intro last hlast
    unfold check_interactions at hlast ⊢
    cases h : (get_pending_interactions cfg store st now since).getLast? with
    | none => simp [h] at hlast
    | some l =>
      simp [h] at hlast ⊢
      rw [hlast]
  · intro hnil
    unfold check_interactions at hnil ⊢
    cases h : (get_pending_interactions cfg store st now since).getLast? with
    | none => simp [h]
    | some l =>
      simp [h] at hnil
      simp [hnil] at h

/-- Witness for the amended C1: a poll whose surviving last message is
id 1 persists cursor 1. -/
theorem C1_witness :
    (read_unread cfg_one store_one st_one).1.getLast? = some msg_one ∧
    (read_unread cfg_one store_one st_one).2.lastRead = some msg_one.id :=
  ⟨by decide, (C1_cursor_tracks_surviving cfg_one store_one st_one 0 60).1 msg_one (by decide)⟩

/-- C3: with a present send cursor `t`, `force = false` and interval `I`:
when `I - (now - t) > 0` the call is rate-limited with exactly that wait,
contacts no remote endpoint and leaves all state unchanged; when the
remaining time is ≤ 0, or the cursor is absent, or `force = true`, the
send proceeds (remote contacted) and the cursor is set to `now` exactly
when the remote reports success; with `I = 0` (and `now` not before `t`)
every call proceeds. -/
theorem C3_send_gate (cfg : Config) (st : BridgeState) (now t : Rat)
    (resp : SendResponse) :
    (st.lastSend = some t → 0 < cfg.minSendInterval - (now - t) →
      send_message cfg st now false resp =
        (.rateLimited (cfg.minSendInterval - (now - t)), st, false)) ∧
    (st.lastSend = some t → cfg.minSendInterval - (now - t) ≤ 0 →
      (send_message cfg st now false resp).2.2 = true ∧
      (resp.status = 200 → (send_message cfg st now false resp).2.1.lastSend = some now) ∧
      (resp.status ≠ 200 → (send_message cfg st now false resp).2.1.lastSend = st.lastSend)) ∧
    (st.lastSend = none →
      (send_message cfg st now false resp).2.2 = true ∧
      (resp.status = 200 → (send_message cfg st now false resp).2.1.lastSend = some now) ∧
      (resp.status ≠ 200 → (send_message cfg st now false resp).2.1.lastSend = st.lastSend)) ∧
    ((send_message cfg st now true resp).2.2 = true ∧
      (resp.status = 200 → (send_message cfg st now true resp).2.1.lastSend = some now) ∧
      (resp.status ≠ 200 → (send_message cfg st now true resp).2.1.lastSend = st.lastSend)) ∧
    (cfg.minSendInterval = 0 → st.lastSend = some t → t ≤ now →
      (send_message cfg st now false resp).2.2 = true) := by
  refine ⟨?_, ?_, ?_, ?_, ?_⟩
  · intro h hpos
    unfold send_message
    rw [h]
    simp [hpos]
  · intro h hneg
    unfold send_message
    rw [h]
    simp only [not_lt.mpr hneg, if_neg (not_lt.mpr hneg)]
    by_cases hs : resp.status = 200
    · simp [hs]
    · have hs2 : (resp.status == 200) = false := by simp [hs]
      simp [hs2, hs, h]
  · intro h
    unfold send_message
    rw [h]
    by_cases hs : resp.status = 200
    · simp [hs]
    · have hs2 : (resp.status == 200) = false := by simp [hs]
      simp [hs2, hs, h]
  · unfold send_message
    cases hl : st.lastSend with
    | none =>
      by_cases hs : resp.status = 200
      · simp [hs]
      · have hs2 : (resp.status == 200) = false := by simp [hs]
        simp [hs2, hs, hl]
    | some t2 =>
      by_cases hs : resp.status = 200
      · simp [hs]
      · have hs2 : (resp.status == 200) = false := by simp [hs]
        simp [hs2, hs, hl]
  · intro hI h hle
    unfold send_message
    rw [h]
    have hnot : ¬ (0 < cfg.minSendInterval - (now - t)) := by
      rw [hI]
      simp
      linarith
    by_cases hs : resp.status = 200
    · simp [hnot, hs]
    · have hs2 : (resp.status == 200) = false := by simp [hs]
      simp [hnot, hs2]

/-- Witness for C3 using the spec's numbers: interval 300, last send at 0,
attempt at 100 is rate-limited with wait 200 and does not contact the
remote. -/
theorem C3_witness :
    send_message cfg_one st_sent 100 false resp_created =
      (.rateLimited 200, st_sent, false) := by
  have h := (C3_send_gate cfg_one st_sent 100 0 resp_created).1 rfl
    (by norm_num [cfg_one])
  have harith : cfg_one.minSendInterval - (100 - 0) = (200 : Rat) := by
    norm_num [cfg_one]
  rw [harith] at h
  exact h

/-- C4: a send or reply that reaches the remote and gets a non-success
status returns an error and leaves the whole state (in particular the
`last_send` cursor) unchanged. -/
theorem C4_failed_send_keeps_cursor (cfg : Config) (st : BridgeState) (now : Rat)
    (force : Bool) (target : Nat) (content : String) (resp : SendResponse)
    (h : resp.status ≠ 200) :
    ((send_message cfg st now force resp).2.2 = true →
      (send_message cfg st now force resp).1 = .sendFailed resp.body ∧
      (send_message cfg st now force resp).2.1 = st) ∧
    ((reply_to cfg st now force target content resp).2.2 ≠ none →
      (reply_to cfg st now force target content resp).1 = .sendFailed resp.body ∧
      (reply_to cfg st now force target content resp).2.1 = st) := by
  have hs2 : (resp.status == 200) = false := by simp [h]
  constructor
  · intro hcontact
    unfold send_message at hcontact ⊢
    cases hl : st.lastSend with
    | none => simp [hs2, hl] at hcontact ⊢
    | some t =>
      cases force with
      | true => simp [hs2, hl] at hcontact ⊢
      | false =>
        rw [hl] at hcontact
        by_cases hw : now - t < cfg.minSendInterval
        · simp [hw] at hcontact
        · simp [hw, hs2] at hcontact ⊢
  · intro hcontact
    unfold reply_to at hcontact ⊢
    cases hl : st.lastSend with
    | none => simp [hs2, hl] at hcontact ⊢
    | some t =>
      cases force with
      | true => simp [hs2, hl] at hcontact ⊢
      | false =>
        rw [hl] at hcontact
        by_cases hw : now - t < cfg.minSendInterval
        · simp [hw] at hcontact
        · simp [hw, hs2] at hcontact ⊢

/-- Witness for C4: a refused send (status 500) with no gate in the way
reports failure and leaves the state unchanged. -/
theorem C4_witness :
    (send_message cfg_one st_one 100 false resp_refused).1 = .sendFailed "boom" ∧
    (send_message cfg_one st_one 100 false resp_refused).2.1 = st_one := by
  have h := (C4_failed_send_keeps_cursor cfg_one st_one 100 false 5 "x" resp_refused
    (by decide)).1 (by decide)
  exact h

/-- C5: when the bridge's own identity is configured (a truthy `BOT_ID`),
no message authored by that identity appears in the output of
`read_unread` or `get_pending_interactions`, for every allow-list
including the empty one. -/
theorem C5_self_exclusion (cfg : Config) (store : List Message) (st : BridgeState)
    (now : Int) (since : Nat) (b : String)
    (hb : cfg.botId = some b) (hbne : b ≠ "") :
    (∀ m ∈ (read_unread cfg store st).1, m.author.id ≠ b) ∧
    (∀ fm ∈ get_pending_interactions cfg store st now since, fm.author_id ≠ b) := by
  constructor
  · intro m hm
    rw [read_unread_fst, hb, read_unread_filter_eq b hbne, List.mem_reverse,
      List.mem_filter] at hm
    simpa using hm.2
  · intro fm hfm
    rw [get_pending_fst] at hfm
    obtain ⟨m, hm, rfl⟩ := List.mem_map.mp hfm
    rw [List.mem_reverse] at hm
    have h2 := (List.mem_filter.mp hm).2
    rw [Bool.and_eq_true] at h2
    have hself := h2.1
    rw [hb, self_ok_eq b hbne] at hself
    show m.author.id ≠ b
    simpa using hself

/-- Witness for C5: with the bridge identity "BOT" configured and an empty
allow-list, the surviving message is not the bridge's own. -/
theorem C5_witness :
    (read_unread cfg_one store_one st_one).1 = [msg_one] ∧
    msg_one.author.id ≠ "BOT" := by
  refine ⟨by decide, ?_⟩
  exact (C5_self_exclusion cfg_one store_one st_one 0 60 "BOT" rfl
    (by decide)).1 msg_one (by decide)

/-- C6: `is_allowed_user` permits everyone exactly when the allow-list is
empty and otherwise permits exactly the keys of the allow-list; and
`get_user_label` prefers the configured name, then a non-empty display
name, then the raw username. -/
theorem C6_allow_list_contract (allowed : List (String × String)) (uid : String)
    (m : Message) :
    (allowed = [] → is_allowed_user allowed uid = true) ∧
    (allowed ≠ [] →
      (is_allowed_user allowed uid = true ↔ ∃ nm, (uid, nm) ∈ allowed)) ∧
    (∀ nm, allowed.lookup m.author.id = some nm → get_user_label allowed m = nm) ∧
    (allowed.lookup m.author.id = none →
      ∀ g, m.author.global_name = some g → g ≠ "" → get_user_label allowed m = g) ∧
    (allowed.lookup m.author.id = none →
      (m.author.global_name = none ∨ m.author.global_name = some "") →
      get_user_label allowed m = m.author.username) := by
  refine ⟨?_, ?_, ?_, ?_, ?_⟩
  · intro h
    simp [is_allowed_user, h]
  · intro h
    have hne : allowed.isEmpty = false := by
      cases allowed with
      | nil => exact absurd rfl h
      | cons p tl => rfl
    rw [is_allowed_user, hne]
    simp only [Bool.false_eq_true, if_false]
    exact lookup_isSome_iff uid allowed
  · intro nm hnm
    unfold get_user_label
    rw [hnm]
  · intro hnone g hg hgne
    unfold get_user_label
    rw [hnone, hg]
    simp [hgne]
  · intro hnone hgn
    unfold get_user_label
    rw [hnone]
    cases hgn with
    | inl h => rw [h]
    | inr h => rw [h]; simp

/-- Witness for C6: with allow-list [("42", "Alice")], author "42" is
allowed and labelled "Alice". -/
theorem C6_witness :
    is_allowed_user allowed_one "42" = true ∧
    get_user_label allowed_one msg_one = "Alice" := by
  constructor
  · exact ((C6_allow_list_contract allowed_one "42" msg_one).2.1
      (by decide)).mpr ⟨"Alice", by decide⟩
  · exact (C6_allow_list_contract allowed_one "42" msg_one).2.2.1 "Alice" (by decide)

/-- C7: when the remote store is in its native newest-first order, every
poll output (`read_unread` and `get_pending_interactions`, with or without
a stored cursor) is chronologically ascending by message id. -/
theorem C7_poll_output_ascending (cfg : Config) (store : List Message)
    (st : BridgeState) (now : Int) (since : Nat)
    (hs : store.Pairwise (fun a b => b.id < a.id)) :
    (read_unread cfg store st).1.Pairwise (fun a b => a.id < b.id) ∧
    ((get_pending_interactions cfg store st now since).map
      FilteredMessage.id).Pairwise (fun a b => a < b) := by
  constructor
  · rw [read_unread_fst, List.pairwise_reverse]
    exact hs.sublist
      ((read_unread_filter_sublist cfg.botId (read_unread_fetch store st)).trans
        (read_unread_fetch_sublist store st))
  · rw [get_pending_fst, List.map_map, List.pairwise_map, List.pairwise_reverse]
    exact hs.sublist
      ((List.filter_sublist (interaction_fetch store st now since)).trans
        (interaction_fetch_sublist store st now since))

/-- Witness for C7: a two-element newest-first store yields an ascending
`read_unread` output. -/
theorem C7_witness :
    store_one.Pairwise (fun a b => b.id < a.id) ∧
    (read_unread cfg_one store_one st_one).1.Pairwise (fun a b => a.id < b.id) :=
  ⟨by decide, (C7_poll_output_ascending cfg_one store_one st_one 0 60 (by decide)).1⟩

/-- C9: when the fetched page is non-empty but every fetched message is
removed by the self-exclusion or allow-list filter, the poll returns the
empty sequence and the state (hence the cursor file) is unchanged —
neither created nor advanced — so the next poll fetches the same page. -/
theorem C9_all_filtered_frame (cfg : Config) (store : List Message)
    (st : BridgeState) (now : Int) (since : Nat) (mr : Bool) (b : String)
    (hb : cfg.botId = some b) (hbne : b ≠ "") :
    (read_unread_fetch store st ≠ [] →
      (∀ m ∈ read_unread_fetch store st, m.author.id = b) →
      read_unread cfg store st = ([], st)) ∧
    (interaction_fetch store st now since ≠ [] →
      (∀ m ∈ interaction_fetch store st now since,
        self_ok cfg.botId m = false ∨
          is_allowed_user cfg.allowedUsers m.author.id = false) →
      check_interactions cfg store st now since mr = ([], st)) := by
  constructor
  · intro hne hall
    have hfil : read_unread_filter cfg.botId (read_unread_fetch store st) = [] := by
      rw [hb, read_unread_filter_eq b hbne, List.filter_eq_nil_iff]
      intro m hm
      simp [hall m hm]
    simp [read_unread, hfil]
  · intro hne hall
    have hfil : interaction_filter cfg (interaction_fetch store st now since) = [] := by
      unfold interaction_filter
      rw [List.filter_eq_nil_iff]
      intro m hm
      rcases hall m hm with h | h
      · simp [h]
      · simp [h]
    simp [check_interactions, get_pending_interactions, hfil]

/-- Witness for C9: a non-empty fetched page consisting only of the
bridge's own message yields an empty poll and an unchanged state. -/
theorem C9_witness :
    read_unread_fetch store_bots st_one ≠ [] ∧
    read_unread cfg_one store_bots st_one = ([], st_one) := by
  refine ⟨by decide, ?_⟩
  exact (C9_all_filtered_frame cfg_one store_bots st_one 0 60 true "BOT" rfl
    (by decide)).1 (by decide) (by decide)

/-- C10: cleanup deletes only messages authored by the configured own
identity, deletes at most `count` of them, and with the identity
unconfigured deletes nothing and reports zero deletions. -/
theorem C10_cleanup_safety (botId : Option String) (page : List Message)
    (count : Nat) (ok : Nat → Bool) :
    (delete_recent_bot_messages botId page count ok).1 ≤ count ∧
    (∀ i ∈ (delete_recent_bot_messages botId page count ok).2,
      ∃ m ∈ page, m.id = i ∧ botId = some m.author.id) ∧
    (botId = none → delete_recent_bot_messages botId page count ok = (0, [])) := by
  cases botId with
  | none =>
    refine ⟨Nat.zero_le count, ?_, fun _ => rfl⟩
    intro i hi
    simp [delete_recent_bot_messages] at hi
  | some b =>
    unfold delete_recent_bot_messages
    dsimp only
    by_cases hbe : (b == "") = true
    · rw [if_pos hbe]
      refine ⟨Nat.zero_le count, ?_, ?_⟩
      · intro i hi
        simp at hi
      · intro hcon
        simp at hcon
    · rw [if_neg hbe]
      dsimp only
      refine ⟨?_, ?_, ?_⟩
      · calc ((((page.filter (fun m => m.author.id == b)).take count).filter
              (fun m => ok m.id)).map (fun m => m.id)).length
            = (((page.filter (fun m => m.author.id == b)).take count).filter
              (fun m => ok m.id)).length := List.length_map _ _
          _ ≤ ((page.filter (fun m => m.author.id == b)).take count).length :=
              List.length_filter_le _ _
          _ ≤ count := by
              rw [List.length_take]
              exact min_le_left count _
      · intro i hi
        obtain ⟨m, hm, rfl⟩ := List.mem_map.mp hi
        have hm2 := (List.mem_filter.mp hm).1
        have hm3 := List.mem_of_mem_take hm2
        have hm4 := List.mem_filter.mp hm3
        refine ⟨m, hm4.1, rfl, ?_⟩
        have : m.author.id = b := by simpa using hm4.2
        rw [this]
      · intro hcon
        simp at hcon

/-- Witness for C10: with no configured identity the cleanup deletes
nothing and reports zero. -/
theorem C10_witness :
    delete_recent_bot_messages none store_one 3 ok_all = (0, []) :=
  (C10_cleanup_safety none store_one 3 ok_all).2.2 rfl
